import Mathlib

/-!
Verification development for the protoc-gen-go-grpc source generator
(cmd/protoc-gen-go-grpc/grpc.go).

The generator walks a resolved interface-description tree (services with
methods carrying two streaming flags) and emits Go source text through a
line sink (g.P).  We embed it shallowly:

* the data model (Method, Service, ProtoFile) carries exactly the
  already-resolved values the generator reads from protogen: Go names,
  descriptor names, qualified input and output type identifiers,
  streaming flags, deprecation flags and leading comments;
* every generator function becomes a Lean function from that data to the
  list of emitted lines (one String per g.P call, arguments
  concatenated, qualified identifiers rendered with their package
  qualifier, strconv.Quote rendered as surrounding double quotes);
* the behavior of the emitted server adapter and client call templates
  is additionally modelled as executable functions over abstract
  transport results, instrumented with an event trace recording each
  collaborator invocation.

The global flag migrationMode is threaded as an explicit Bool parameter
to the two functions that read it (genClient, genServerStreamTypes) and
to the callers that reach them.
-/

namespace GrpcGen

/-- A resolved method: protogen values read by the generator.
goName is method.GoName, descName is method.Desc.Name(), inputType and
outputType are the qualified Go identifiers of Input and Output. -/
structure Method where
  goName : String
  descName : String
  inputType : String
  outputType : String
  clientStreaming : Bool
  serverStreaming : Bool
  deprecated : Bool
  leadingComments : String
deriving DecidableEq, Repr

/-- A resolved service: goName is service.GoName, fullName is
service.Desc.FullName(), methods in declaration order. -/
structure Service where
  goName : String
  fullName : String
  deprecated : Bool
  methods : List Method
deriving DecidableEq, Repr

/-- A resolved input file: path is file.Desc.Path(). -/
structure ProtoFile where
  path : String
  goPackageName : String
  services : List Service
deriving DecidableEq, Repr

/-- Sequential emission of a loop body over a list, mirroring a Go
for-range loop writing to the shared sink. -/
def flatLines {α : Type} (f : α → List String) : List α → List String
  | [] => []
  | a :: as => f a ++ flatLines f as

/-- Rendering of strconv.Quote: the argument surrounded by double
quotes (escaping of special characters does not arise for the
identifier-shaped strings quoted by this generator). -/
def goQuote (s : String) : String := "\"" ++ s ++ "\""

/-- grpc.go line 504: the deprecation comment constant. -/
def deprecationComment : String := "// Deprecated: Do not use."

/-- grpc.go line 506, fault-faithful form: unexport(s) evaluates
strings.ToLower(s[:1]) + s[1:]; the slice s[:1] panics on the empty
string, modelled as none.  On a nonempty string the first character is
case-folded to lower case and the rest kept unchanged (the generator
only ever passes ASCII Go identifiers). -/
def unexportChecked : String → Option String
  | ⟨[]⟩ => none
  | ⟨c :: cs⟩ => some ⟨Char.toLower c :: cs⟩

/-- grpc.go line 506, total form used inside the line embedding; it
agrees with unexportChecked on every nonempty string, which is the only
way the generator ever calls it. -/
def unexport : String → String
  | ⟨[]⟩ => ""
  | ⟨c :: cs⟩ => ⟨Char.toLower c :: cs⟩

/-- grpc.go line 136: the fully qualified method path the client stub
passes to Invoke and NewStream, built from the DESCRIPTOR name. -/
def clientMethodPath (svc : Service) (m : Method) : String :=
  "/" ++ svc.fullName ++ "/" ++ m.descName

/-- grpc.go line 426: the FullMethod string placed in the generated
grpc.UnaryServerInfo, built from the GO name of the method. -/
def unaryServerInfoFullMethod (svc : Service) (m : Method) : String :=
  "/" ++ svc.fullName ++ "/" ++ m.goName

/-- grpc.go lines 119-132: the client-side method signature. -/
def clientSignature (svc : Service) (m : Method) : String :=
  m.goName ++ "(ctx context.Context"
    ++ (if !m.clientStreaming then ", in *" ++ m.inputType else "")
    ++ ", opts ...grpc.CallOption) ("
    ++ (if !m.clientStreaming && !m.serverStreaming then
          "*" ++ m.outputType
        else
          svc.goName ++ "_" ++ m.goName ++ "Client")
    ++ ", error)"

/-- grpc.go lines 358-372: the signature listed in the unstable service
interface and checked by the service constructor. -/
def methodSignature (svc : Service) (m : Method) : String :=
  let reqArgs :=
    (if !m.clientStreaming && !m.serverStreaming then ["context.Context"] else [])
    ++ (if !m.clientStreaming then ["*" ++ m.inputType] else [])
    ++ (if m.clientStreaming || m.serverStreaming then
          [svc.goName ++ "_" ++ m.goName ++ "Server"] else [])
  let ret :=
    if !m.clientStreaming && !m.serverStreaming then
      "(*" ++ m.outputType ++ ", error)"
    else "error"
  m.goName ++ "(" ++ String.intercalate ", " reqArgs ++ ") " ++ ret

/-- grpc.go lines 374-388: the function-typed field of the dispatch
struct for one method. -/
def handlerSignature (svc : Service) (m : Method) : String :=
  let reqArgs :=
    (if !m.clientStreaming && !m.serverStreaming then ["context.Context"] else [])
    ++ (if !m.clientStreaming then ["*" ++ m.inputType] else [])
    ++ (if m.clientStreaming || m.serverStreaming then
          [svc.goName ++ "_" ++ m.goName ++ "Server"] else [])
  let ret :=
    if !m.clientStreaming && !m.serverStreaming then
      "(*" ++ m.outputType ++ ", error)"
    else "error"
  m.goName ++ " func(" ++ String.intercalate ", " reqArgs ++ ") " ++ ret

/-- grpc.go lines 390-393. -/
def unaryHandlerSignature : String :=
  "(_ interface\x7b\x7d, ctx context.Context, dec func(interface\x7b\x7d) error, interceptor grpc.UnaryServerInterceptor) (interface\x7b\x7d, error)"

/-- grpc.go lines 395-397. -/
def streamHandlerSignature : String :=
  "(_ interface\x7b\x7d, stream grpc.ServerStream) error"

/-- grpc.go lines 138-140: the optional deprecation notice in front of
a method-level declaration. -/
def methodDeprLines (m : Method) : List String :=
  if m.deprecated then [deprecationComment] else []

/-- grpc.go line 142: the name of the per-method stream descriptor
variable. -/
def streamDescName (svc : Service) (m : Method) : String :=
  unexport svc.goName ++ m.goName ++ "StreamDesc"

/-- grpc.go lines 143-151: the stream descriptor variable emitted for
every method, streaming flags included only when set. -/
def clientStreamDescLines (svc : Service) (m : Method) : List String :=
  ["var " ++ streamDescName svc m ++ " = &grpc.StreamDesc\x7b",
   "StreamName: " ++ goQuote m.descName ++ ","]
  ++ (if m.serverStreaming then ["ServerStreams: true,"] else [])
  ++ (if m.clientStreaming then ["ClientStreams: true,"] else [])
  ++ ["\x7d"]

/-- grpc.go lines 153-161: the unary client implementation body. -/
def unaryClientImplLines (svc : Service) (m : Method) : List String :=
  ["func (c *" ++ unexport svc.goName ++ "Client) " ++ clientSignature svc m ++ "\x7b",
   "out := new(" ++ m.outputType ++ ")",
   "err := c.cc.Invoke(ctx, " ++ goQuote (clientMethodPath svc m) ++ ", in, out, opts...)",
   "if err != nil \x7b return nil, err \x7d",
   "return out, nil",
   "\x7d",
   ""]

/-- grpc.go line 163: the unexported client-side stream wrapper struct
name. -/
def clientStreamType (svc : Service) (m : Method) : String :=
  unexport svc.goName ++ m.goName ++ "Client"

/-- grpc.go lines 153, 163-174: the streaming client implementation
body; when the method is not client-streaming the single request is
sent and the send side closed before the wrapper is returned. -/
def streamingClientImplLines (svc : Service) (m : Method) : List String :=
  ["func (c *" ++ unexport svc.goName ++ "Client) " ++ clientSignature svc m ++ "\x7b",
   "stream, err := c.cc.NewStream(ctx, " ++ streamDescName svc m ++ ", "
     ++ goQuote (clientMethodPath svc m) ++ ", opts...)",
   "if err != nil \x7b return nil, err \x7d",
   "x := &" ++ clientStreamType svc m ++ "\x7bstream\x7d"]
  ++ (if !m.clientStreaming then
        ["if err := x.ClientStream.SendMsg(in); err != nil \x7b return nil, err \x7d",
         "if err := x.ClientStream.CloseSend(); err != nil \x7b return nil, err \x7d"]
      else [])
  ++ ["return x, nil", "\x7d", ""]

/-- grpc.go line 176: the client wrapper exposes Send exactly when the
method is client-streaming. -/
def clientGenSend (m : Method) : Bool := m.clientStreaming

/-- grpc.go line 177: the client wrapper exposes Recv exactly when the
method is server-streaming. -/
def clientGenRecv (m : Method) : Bool := m.serverStreaming

/-- grpc.go line 178: the client wrapper exposes CloseAndRecv exactly
when the method is not server-streaming. -/
def clientGenCloseAndRecv (m : Method) : Bool := !m.serverStreaming

/-- grpc.go lines 181-193: the client-side stream wrapper interface
block. -/
def clientWrapperIfaceLines (svc : Service) (m : Method) : List String :=
  ["type " ++ svc.goName ++ "_" ++ m.goName ++ "Client interface \x7b"]
  ++ (if clientGenSend m then ["Send(*" ++ m.inputType ++ ") error"] else [])
  ++ (if clientGenRecv m then ["Recv() (*" ++ m.outputType ++ ", error)"] else [])
  ++ (if clientGenCloseAndRecv m then
        ["CloseAndRecv() (*" ++ m.outputType ++ ", error)"] else [])
  ++ ["grpc.ClientStream", "\x7d", ""]

/-- grpc.go lines 195-222: the client-side wrapper struct and its
method implementations, gated by the same three flags as the
interface. -/
def clientWrapperImplLines (svc : Service) (m : Method) : List String :=
  ["type " ++ clientStreamType svc m ++ " struct \x7b", "grpc.ClientStream", "\x7d", ""]
  ++ (if clientGenSend m then
        ["func (x *" ++ clientStreamType svc m ++ ") Send(m *" ++ m.inputType ++ ") error \x7b",
         "return x.ClientStream.SendMsg(m)",
         "\x7d",
         ""] else [])
  ++ (if clientGenRecv m then
        ["func (x *" ++ clientStreamType svc m ++ ") Recv() (*" ++ m.outputType ++ ", error) \x7b",
         "m := new(" ++ m.outputType ++ ")",
         "if err := x.ClientStream.RecvMsg(m); err != nil \x7b return nil, err \x7d",
         "return m, nil",
         "\x7d",
         ""] else [])
  ++ (if clientGenCloseAndRecv m then
        ["func (x *" ++ clientStreamType svc m ++ ") CloseAndRecv() (*" ++ m.outputType ++ ", error) \x7b",
         "if err := x.ClientStream.CloseSend(); err != nil \x7b return nil, err \x7d",
         "m := new(" ++ m.outputType ++ ")",
         "if err := x.ClientStream.RecvMsg(m); err != nil \x7b return nil, err \x7d",
         "return m, nil",
         "\x7d",
         ""] else [])

/-- grpc.go lines 134-223: the per-method client output.  The optional
deprecation notice and the stream descriptor are emitted first for
every method; a unary method then gets only the Invoke-based body,
while a streaming method gets the NewStream-based body followed by the
stream wrapper type. -/
def genClientMethod (svc : Service) (m : Method) : List String :=
  methodDeprLines m ++ clientStreamDescLines svc m
  ++ (if !m.serverStreaming && !m.clientStreaming then
        unaryClientImplLines svc m
      else
        streamingClientImplLines svc m
        ++ clientWrapperIfaceLines svc m
        ++ clientWrapperImplLines svc m)

/-- grpc.go lines 70-117: the client builder; it returns immediately
when migrationMode is set. -/
def genClient (migrationMode : Bool) (svc : Service) : List String :=
  if migrationMode then [] else
  let clientName := svc.goName ++ "Client"
  ["// " ++ clientName ++ " is the client API for " ++ svc.goName ++ " service.",
   "//",
   "// For semantics around ctx use and closing/ending streaming RPCs, please refer to https://pkg.go.dev/google.golang.org/grpc/?tab=doc#ClientConn.NewStream."]
  ++ (if svc.deprecated then ["//", deprecationComment] else [])
  ++ ["type " ++ clientName ++ " interface \x7b"]
  ++ flatLines (fun m =>
       methodDeprLines m ++ [m.leadingComments ++ clientSignature svc m]) svc.methods
  ++ ["\x7d", ""]
  ++ ["type " ++ unexport clientName ++ " struct \x7b",
      "cc grpc.ClientConnInterface",
      "\x7d",
      ""]
  ++ (if svc.deprecated then [deprecationComment] else [])
  ++ ["func New" ++ clientName ++ " (cc grpc.ClientConnInterface) " ++ clientName ++ " \x7b",
      "return &" ++ unexport clientName ++ "\x7bcc\x7d",
      "\x7d",
      ""]
  ++ flatLines (genClientMethod svc) svc.methods

/-- grpc.go line 434 (also 455): the unexported server-side stream
wrapper struct name. -/
def serverStreamType (svc : Service) (m : Method) : String :=
  unexport svc.goName ++ m.goName ++ "Server"

/-- grpc.go lines 420-432: the unary adapter body emitted after the nil
check: decode, direct call when no interceptor, otherwise interceptor
metadata (FullMethod built from the GO name), nested handler closure
and delegation to the interceptor. -/
def unaryHandlerBodyLines (svc : Service) (m : Method) : List String :=
  ["in := new(" ++ m.inputType ++ ")",
   "if err := dec(in); err != nil \x7b return nil, err \x7d",
   "if interceptor == nil \x7b return s." ++ m.goName ++ "(ctx, in) \x7d",
   "info := &grpc.UnaryServerInfo\x7b",
   "Server: s,",
   "FullMethod: " ++ goQuote (unaryServerInfoFullMethod svc m) ++ ",",
   "\x7d",
   "handler := func(ctx context.Context, req interface\x7b\x7d) (interface\x7b\x7d, error) \x7b",
   "return s." ++ m.goName ++ "(ctx, req.(*" ++ m.inputType ++ "))",
   "\x7d",
   "return interceptor(ctx, in, info, handler)"]

/-- grpc.go lines 418-444: the adapter body emitted after the nil
check, selected by shape: unary decode path, server-streaming receive
first, client- or bidi-streaming direct invocation. -/
def genHandlerBody (svc : Service) (m : Method) : List String :=
  if !m.clientStreaming && !m.serverStreaming then
    unaryHandlerBodyLines svc m
  else if !m.clientStreaming then
    ["m := new(" ++ m.inputType ++ ")",
     "if err := stream.RecvMsg(m); err != nil \x7b return err \x7d",
     "return s." ++ m.goName ++ "(m, &" ++ serverStreamType svc m ++ "\x7bstream\x7d)"]
  else
    ["return s." ++ m.goName ++ "(&" ++ serverStreamType svc m ++ "\x7bstream\x7d)"]

/-- grpc.go lines 399-416: the adapter function for one method: the
signature chosen by shape, then the nil-field check returning the
Unimplemented status that names the method, then the body. -/
def genMethodHandler (svc : Service) (m : Method) : List String :=
  let nilArg := if !m.clientStreaming && !m.serverStreaming then "nil," else ""
  let signature :=
    if !m.clientStreaming && !m.serverStreaming then unaryHandlerSignature
    else streamHandlerSignature
  ["func (s *" ++ svc.goName ++ "Service) " ++ unexport m.goName ++ signature ++ " \x7b",
   "if s." ++ m.goName ++ " == nil \x7b",
   "return " ++ nilArg ++ "status.Errorf(codes.Unimplemented, \"method "
     ++ m.goName ++ " not implemented\")",
   "\x7d"]
  ++ genHandlerBody svc m
  ++ ["\x7d"]

/-- grpc.go line 456: the server wrapper exposes Send exactly when the
method is server-streaming. -/
def serverGenSend (m : Method) : Bool := m.serverStreaming

/-- grpc.go line 457: the server wrapper exposes SendAndClose exactly
when the method is not server-streaming. -/
def serverGenSendAndClose (m : Method) : Bool := !m.serverStreaming

/-- grpc.go line 458: the server wrapper exposes Recv exactly when the
method is client-streaming. -/
def serverGenRecv (m : Method) : Bool := m.clientStreaming

/-- grpc.go lines 461-472: the server-side stream wrapper interface
block. -/
def serverWrapperIfaceLines (svc : Service) (m : Method) : List String :=
  ["type " ++ svc.goName ++ "_" ++ m.goName ++ "Server interface \x7b"]
  ++ (if serverGenSend m then ["Send(*" ++ m.outputType ++ ") error"] else [])
  ++ (if serverGenSendAndClose m then
        ["SendAndClose(*" ++ m.outputType ++ ") error"] else [])
  ++ (if serverGenRecv m then ["Recv() (*" ++ m.inputType ++ ", error)"] else [])
  ++ ["grpc.ServerStream", "\x7d", ""]

/-- grpc.go lines 475-499: the server-side wrapper struct and its
method implementations. -/
def serverWrapperImplLines (svc : Service) (m : Method) : List String :=
  ["type " ++ serverStreamType svc m ++ " struct \x7b", "grpc.ServerStream", "\x7d", ""]
  ++ (if serverGenSend m then
        ["func (x *" ++ serverStreamType svc m ++ ") Send(m *" ++ m.outputType ++ ") error \x7b",
         "return x.ServerStream.SendMsg(m)",
         "\x7d",
         ""] else [])
  ++ (if serverGenSendAndClose m then
        ["func (x *" ++ serverStreamType svc m ++ ") SendAndClose(m *" ++ m.outputType ++ ") error \x7b",
         "return x.ServerStream.SendMsg(m)",
         "\x7d",
         ""] else [])
  ++ (if serverGenRecv m then
        ["func (x *" ++ serverStreamType svc m ++ ") Recv() (*" ++ m.inputType ++ ", error) \x7b",
         "m := new(" ++ m.inputType ++ ")",
         "if err := x.ServerStream.RecvMsg(m); err != nil \x7b return nil, err \x7d",
         "return m, nil",
         "\x7d",
         ""] else [])

/-- grpc.go lines 446-502: the server-side stream wrapper type for one
method; nothing is emitted in migration mode and nothing for a unary
method. -/
def genServerStreamTypes (migrationMode : Bool) (svc : Service) (m : Method) : List String :=
  if migrationMode then []
  else if !m.clientStreaming && !m.serverStreaming then []
  else serverWrapperIfaceLines svc m ++ serverWrapperImplLines svc m

/-- grpc.go lines 227-247: the dispatch struct with one function-typed
field per method. -/
def serviceStructLines (svc : Service) : List String :=
  let serviceType := svc.goName ++ "Service"
  ["// " ++ serviceType ++ " is the service API for " ++ svc.goName ++ " service.",
   "// Fields should be assigned to their respective handler implementations only before",
   "// Register" ++ serviceType ++ " is called.  Any unassigned fields will result in the",
   "// handler for that method returning an Unimplemented error."]
  ++ (if svc.deprecated then ["//", deprecationComment] else [])
  ++ ["type " ++ serviceType ++ " struct \x7b"]
  ++ flatLines (fun m =>
       methodDeprLines m ++ [m.leadingComments ++ handlerSignature svc m]) svc.methods
  ++ ["\x7d", ""]

/-- One entry of the Methods list of the emitted grpc.ServiceDesc. -/
structure MethodDescEntry where
  methodName : String
  handler : String
deriving DecidableEq, Repr

/-- One entry of the Streams list of the emitted grpc.ServiceDesc. -/
structure StreamDescEntry where
  streamName : String
  handler : String
  serverStreams : Bool
  clientStreams : Bool
deriving DecidableEq, Repr

/-- The emitted grpc.ServiceDesc, structurally. -/
structure ServiceDescData where
  serviceName : String
  methods : List MethodDescEntry
  streams : List StreamDescEntry
  metadata : String
deriving DecidableEq, Repr

/-- grpc.go lines 278-286: the loop over all methods that collects the
Methods entries, skipping every method with a streaming flag set. -/
def serviceUnaryEntries : List Method → List MethodDescEntry
  | [] => []
  | m :: rest =>
    if m.clientStreaming || m.serverStreaming then serviceUnaryEntries rest
    else ⟨m.descName, "srv." ++ unexport m.goName⟩ :: serviceUnaryEntries rest

/-- grpc.go lines 289-303: the loop over all methods that collects the
Streams entries, skipping every method with no streaming flag set; the
two flags are copied from the method descriptor. -/
def serviceStreamEntries : List Method → List StreamDescEntry
  | [] => []
  | m :: rest =>
    if !m.clientStreaming && !m.serverStreaming then serviceStreamEntries rest
    else ⟨m.descName, "srv." ++ unexport m.goName,
          m.serverStreaming, m.clientStreaming⟩ :: serviceStreamEntries rest

/-- grpc.go lines 275-306: the descriptor handed to RegisterService. -/
def serviceDescOf (f : ProtoFile) (svc : Service) : ServiceDescData :=
  ⟨svc.fullName, serviceUnaryEntries svc.methods,
   serviceStreamEntries svc.methods, f.path⟩

/-- grpc.go lines 282-285: the lines of one Methods entry. -/
def methodDescEntryLines (e : MethodDescEntry) : List String :=
  ["\x7b", "MethodName: " ++ goQuote e.methodName ++ ",",
   "Handler: " ++ e.handler ++ ",", "\x7d,"]

/-- grpc.go lines 293-302: the lines of one Streams entry, flag lines
only when the flag is set. -/
def streamDescEntryLines (e : StreamDescEntry) : List String :=
  ["\x7b", "StreamName: " ++ goQuote e.streamName ++ ",",
   "Handler: " ++ e.handler ++ ","]
  ++ (if e.serverStreams then ["ServerStreams: true,"] else [])
  ++ (if e.clientStreams then ["ClientStreams: true,"] else [])
  ++ ["\x7d,"]

/-- grpc.go lines 266-312: the registration function: descriptor
literal with full name, unary entries, streaming entries and metadata
path, then the RegisterService call with a nil implementation
pointer. -/
def genRegisterFunction (f : ProtoFile) (svc : Service) : List String :=
  ["// Register" ++ svc.goName ++ "Service registers a service implementation with a gRPC server."]
  ++ (if svc.deprecated then ["//", deprecationComment] else [])
  ++ ["func Register" ++ svc.goName ++ "Service(s grpc.ServiceRegistrar, srv *"
        ++ svc.goName ++ "Service) \x7b",
      "sd := grpc.ServiceDesc \x7b",
      "ServiceName: " ++ goQuote svc.fullName ++ ",",
      "Methods: []grpc.MethodDesc\x7b"]
  ++ flatLines methodDescEntryLines (serviceUnaryEntries svc.methods)
  ++ ["\x7d,",
      "Streams: []grpc.StreamDesc\x7b"]
  ++ flatLines streamDescEntryLines (serviceStreamEntries svc.methods)
  ++ ["\x7d,",
      "Metadata: \"" ++ f.path ++ "\",",
      "\x7d",
      "",
      "s.RegisterService(&sd, nil)",
      "\x7d",
      ""]

/-- grpc.go lines 314-331: the reflective service constructor. -/
def genServiceConstructor (svc : Service) : List String :=
  ["// New" ++ svc.goName ++ "Service creates a new " ++ svc.goName ++ "Service containing the",
   "// implemented methods of the " ++ svc.goName ++ " service in s.  Any unimplemented",
   "// methods will result in the gRPC server returning an UNIMPLEMENTED status to the client.",
   "// This includes situations where the method handler is misspelled or has the wrong",
   "// signature.  For this reason, this function should be used with great care and",
   "// is not recommended to be used by most users.",
   "func New" ++ svc.goName ++ "Service(s interface\x7b\x7d) *" ++ svc.goName ++ "Service \x7b",
   "ns := &" ++ svc.goName ++ "Service\x7b\x7d"]
  ++ flatLines (fun m =>
       ["if h, ok := s.(interface \x7b" ++ methodSignature svc m ++ "\x7d); ok \x7b",
        "ns." ++ m.goName ++ " = h." ++ m.goName,
        "\x7d"]) svc.methods
  ++ ["return ns", "\x7d", ""]

/-- grpc.go lines 333-356: the unstable service interface; emitted for
every service regardless of mode. -/
def genUnstableServiceInterface (svc : Service) : List String :=
  let serviceType := svc.goName ++ "Service"
  ["// Unstable" ++ serviceType ++ " is the service API for " ++ svc.goName ++ " service.",
   "// New methods may be added to this interface if they are added to the service",
   "// definition, which is not a backward-compatible change.  For this reason, ",
   "// use of this type is not recommended."]
  ++ (if svc.deprecated then ["//", deprecationComment] else [])
  ++ ["type Unstable" ++ serviceType ++ " interface \x7b"]
  ++ flatLines (fun m =>
       methodDeprLines m ++ [m.leadingComments ++ methodSignature svc m]) svc.methods
  ++ ["\x7d", ""]

/-- grpc.go lines 225-264: the server-side builder: dispatch struct,
per-method adapters, per-method stream wrapper types, registration
function, service constructor, in that order. -/
def genService (migrationMode : Bool) (f : ProtoFile) (svc : Service) : List String :=
  serviceStructLines svc
  ++ flatLines (genMethodHandler svc) svc.methods
  ++ flatLines (genServerStreamTypes migrationMode svc) svc.methods
  ++ genRegisterFunction f svc
  ++ genServiceConstructor svc

/-- grpc.go lines 63-67: the loop body run for each service: client
builder, server builder, unstable interface builder. -/
def perServiceLines (migrationMode : Bool) (f : ProtoFile) (svc : Service) : List String :=
  genClient migrationMode svc
  ++ genService migrationMode f svc
  ++ genUnstableServiceInterface svc

/-- grpc.go lines 59-62: the compatibility assertion header. -/
def assertionHeaderLines : List String :=
  ["// This is a compile-time assertion to ensure that this generated file",
   "// is compatible with the grpc package it is being compiled against.",
   "const _ = grpc.SupportPackageIsVersion7",
   ""]

/-- grpc.go lines 54-68: the file content, empty for a file with no
services. -/
def generateFileContent (migrationMode : Bool) (f : ProtoFile) : List String :=
  if f.services.isEmpty then []
  else assertionHeaderLines ++ flatLines (perServiceLines migrationMode f) f.services

/-- grpc.go lines 39-51: the whole generated file; a file declaring no
services produces no output file at all. -/
def generateFile (migrationMode : Bool) (f : ProtoFile) : Option (List String) :=
  if f.services.isEmpty then none
  else some
    (["// Code generated by protoc-gen-go-grpc. DO NOT EDIT.",
      "",
      "package " ++ f.goPackageName,
      ""]
     ++ generateFileContent migrationMode f)

/-! ## Runtime model of the emitted templates

The adapter and client-call bodies the generator emits are fixed
templates over the method names and types.  The following functions are
their direct Lean reading, with the collaborator primitives (decode
callback, interceptor, stream send and receive) abstracted as supplied
results, and an event trace recording each collaborator invocation in
order. -/

/-- A gRPC status code; only Unimplemented is distinguished, the rest
are opaque. -/
inductive StatusCode where
  | unimplemented
  | other (n : Nat)
deriving DecidableEq, Repr

/-- A gRPC status error: code and message. -/
structure GrpcError where
  code : StatusCode
  msg : String
deriving DecidableEq, Repr

/-- The error built by the emitted nil-field check (grpc.go line 411):
status.Errorf(codes.Unimplemented, "method <GoName> not implemented"). -/
def unimplementedError (goName : String) : GrpcError :=
  ⟨StatusCode.unimplemented, "method " ++ goName ++ " not implemented"⟩

/-- One collaborator invocation performed by an emitted template. -/
inductive CallEvent where
  | newStream
  | sendMsg
  | closeSend
  | decode
  | recvMsg
  | invokeHandler
  | invokeInterceptor
deriving DecidableEq, Repr

/-- The grpc.UnaryServerInfo value built by the emitted unary adapter
(grpc.go lines 424-427); the server reference is elided, the FullMethod
string is kept. -/
structure UnaryServerInfoData where
  fullMethod : String
deriving DecidableEq, Repr

/-- The emitted server-side stream wrapper struct: it holds the raw
server stream (grpc.go lines 475-477). -/
structure ServerStreamWrapper (σ : Type) where
  stream : σ
deriving DecidableEq, Repr

/-- The emitted client-side stream wrapper struct: it holds the raw
client stream (grpc.go lines 195-197). -/
structure ClientStreamWrapper (σ : Type) where
  clientStream : σ
deriving DecidableEq, Repr

/-- Behavior of the emitted unary adapter (grpc.go lines 408-432): nil
field check first, then decode, then either a direct call of the field
or delegation to the interceptor with the constructed info and nested
handler closure.  dec is the outcome of the decode callback; the
returned trace lists the collaborator invocations that happened. -/
def unaryMethodAdapter {γ α β : Type} (svc : Service) (m : Method)
    (fieldImpl : Option (γ → α → Except GrpcError β))
    (ctx : γ) (dec : Except GrpcError α)
    (interceptor : Option (γ → α → UnaryServerInfoData →
      (γ → α → Except GrpcError β) → Except GrpcError β)) :
    Except GrpcError β × List CallEvent :=
  match fieldImpl with
  | none => (Except.error (unimplementedError m.goName), [])
  | some h =>
    match dec with
    | Except.error e => (Except.error e, [CallEvent.decode])
    | Except.ok a =>
      match interceptor with
      | none => (h ctx a, [CallEvent.decode, CallEvent.invokeHandler])
      | some i =>
        (i ctx a ⟨unaryServerInfoFullMethod svc m⟩ (fun c r => h c r),
         [CallEvent.decode, CallEvent.invokeInterceptor])

/-- Behavior of the emitted adapter for a server-streaming method
(grpc.go lines 408-416 and 435-439): nil check first, then one receive
from the stream into a fresh input value, then the field invoked with
the received message and the stream wrapper. -/
def serverStreamingMethodAdapter {σ α : Type} (m : Method)
    (fieldImpl : Option (α → ServerStreamWrapper σ → Option GrpcError))
    (stream : σ) (recvResult : Except GrpcError α) :
    Option GrpcError × List CallEvent :=
  match fieldImpl with
  | none => (some (unimplementedError m.goName), [])
  | some h =>
    match recvResult with
    | Except.error e => (some e, [CallEvent.recvMsg])
    | Except.ok a => (h a ⟨stream⟩, [CallEvent.recvMsg, CallEvent.invokeHandler])

/-- Behavior of the emitted adapter for a client- or bidi-streaming
method (grpc.go lines 408-416 and 440-443): nil check first, then the
field invoked directly with the stream wrapper, no upfront receive. -/
def streamingMethodAdapter {σ : Type} (m : Method)
    (fieldImpl : Option (ServerStreamWrapper σ → Option GrpcError))
    (stream : σ) :
    Option GrpcError × List CallEvent :=
  match fieldImpl with
  | none => (some (unimplementedError m.goName), [])
  | some h => (h ⟨stream⟩, [CallEvent.invokeHandler])

/-- Behavior of the emitted client method body for a streaming method
whose client-streaming flag is false (grpc.go lines 165-172): open the
stream, wrap it, send the single request, close the send side, and only
then return the wrapper; the first failing step has its error returned
unchanged with no wrapper. -/
def serverStreamingClientCall {σ : Type}
    (newStreamResult : Except GrpcError σ)
    (sendMsgResult : Option GrpcError)
    (closeSendResult : Option GrpcError) :
    Except GrpcError (ClientStreamWrapper σ) × List CallEvent :=
  match newStreamResult with
  | Except.error e => (Except.error e, [CallEvent.newStream])
  | Except.ok s =>
    match sendMsgResult with
    | some e => (Except.error e, [CallEvent.newStream, CallEvent.sendMsg])
    | none =>
      match closeSendResult with
      | some e =>
        (Except.error e,
         [CallEvent.newStream, CallEvent.sendMsg, CallEvent.closeSend])
      | none =>
        (Except.ok ⟨s⟩,
         [CallEvent.newStream, CallEvent.sendMsg, CallEvent.closeSend])

/-! ## String and list helper lemmas -/

theorem string_data_append (a b : String) : (a ++ b).data = a.data ++ b.data := rfl

theorem string_ne_of_take_ne (n : Nat) {s t : String}
    (h : s.data.take n ≠ t.data.take n) : s ≠ t :=
  fun he => h (he ▸ rfl)

theorem string_append_take {a : String} (x : String) {n : Nat}
    (hn : n ≤ a.data.length) : (a ++ x).data.take n = a.data.take n := by
  rw [string_data_append, List.take_append_of_le_length hn]

/-- Two strings with distinct heads of length n after their literal
parts differ. -/
theorem lit_ne_lit {a b : String} (x y : String) (n : Nat)
    (ha : n ≤ a.data.length) (hb : n ≤ b.data.length)
    (h : a.data.take n ≠ b.data.take n) : a ++ x ≠ b ++ y := by
  intro he
  apply h
  rw [← string_append_take x ha, he, string_append_take y hb]

/-- A string with a literal head differs from a literal with a distinct
head. -/
theorem lit_append_ne_lit {a : String} (x : String) {b : String} (n : Nat)
    (ha : n ≤ a.data.length)
    (h : a.data.take n ≠ b.data.take n) : a ++ x ≠ b := by
  intro he
  apply h
  rw [← string_append_take x ha, he]

theorem flatLines_eq_nil {α : Type} {f : α → List String}
    (h : ∀ a, f a = []) (l : List α) : flatLines f l = [] := by
  induction l with
  | nil => rfl
  | cons a as ih => simp [flatLines, h a, ih]

theorem mem_flatLines {α : Type} {f : α → List String} {s : String} {a : α}
    {l : List α} (hal : a ∈ l) (hsf : s ∈ f a) : s ∈ flatLines f l := by
  induction l with
  | nil => cases hal
  | cons b bs ih =>
    rcases List.mem_cons.mp hal with h | h
    · subst h
      exact List.mem_append.mpr (Or.inl hsf)
    · exact List.mem_append.mpr (Or.inr (ih h))

/-! ## Concrete fixtures -/

/-- The unary scenario method of the spec: SayHello with matching Go
and descriptor names. -/
def helloMethod : Method :=
  ⟨"SayHello", "SayHello", "HelloRequest", "HelloReply",
   false, false, false, ""⟩

/-- A unary method whose descriptor name is written in snake case, so
its generated Go name differs from its descriptor name. -/
def snakeMethod : Method :=
  ⟨"SayHello", "say_hello", "HelloRequest", "HelloReply",
   false, false, false, ""⟩

/-- A server-streaming method. -/
def watchMethod : Method :=
  ⟨"Watch", "Watch", "WatchRequest", "WatchReply",
   false, true, false, ""⟩

def greeterService : Service :=
  ⟨"Greeter", "helloworld.Greeter", false, [helloMethod]⟩

def snakeService : Service :=
  ⟨"Greeter", "helloworld.Greeter", false, [snakeMethod]⟩

def helloFile : ProtoFile :=
  ⟨"helloworld.proto", "helloworld", [greeterService]⟩

/-! ## Supporting lemmas about the registration loops -/

theorem serviceUnaryEntries_eq_filter (l : List Method) :
    serviceUnaryEntries l =
      (l.filter (fun m => !m.clientStreaming && !m.serverStreaming)).map
        (fun m => ⟨m.descName, "srv." ++ unexport m.goName⟩) := by
  induction l with
  | nil => rfl
  | cons m rest ih =>
    cases hc : m.clientStreaming <;> cases hs : m.serverStreaming <;>
      simp [serviceUnaryEntries, hc, hs, ih]

theorem serviceStreamEntries_eq_filter (l : List Method) :
    serviceStreamEntries l =
      (l.filter (fun m => m.clientStreaming || m.serverStreaming)).map
        (fun m => ⟨m.descName, "srv." ++ unexport m.goName,
                   m.serverStreaming, m.clientStreaming⟩) := by
  induction l with
  | nil => rfl
  | cons m rest ih =>
    cases hc : m.clientStreaming <;> cases hs : m.serverStreaming <;>
      simp [serviceStreamEntries, hc, hs, ih]

/-! ## Claims -/

/-- C2: with MigrationLite mode set, the client builder and the
server-side stream wrapper builder emit nothing, and everything else
genService and the per-service loop emit — dispatch struct, adapters,
registration function, constructor, unstable interface — is the same
line list full mode emits for those parts. -/
theorem claim_C2_migration_mode (f : ProtoFile) (svc : Service) (m : Method) :
    genClient true svc = []
    ∧ genServerStreamTypes true svc m = []
    ∧ genService true f svc =
        serviceStructLines svc ++ flatLines (genMethodHandler svc) svc.methods
          ++ genRegisterFunction f svc ++ genServiceConstructor svc
    ∧ genService false f svc =
        serviceStructLines svc ++ flatLines (genMethodHandler svc) svc.methods
          ++ flatLines (genServerStreamTypes false svc) svc.methods
          ++ genRegisterFunction f svc ++ genServiceConstructor svc
    ∧ perServiceLines true f svc =
        genService true f svc ++ genUnstableServiceInterface svc := by
  refine ⟨rfl, rfl, ?_, rfl, ?_⟩
  · have hW : flatLines (genServerStreamTypes true svc) svc.methods = [] :=
      flatLines_eq_nil (fun a => rfl) svc.methods
    unfold genService
    rw [hW]
    simp
  · unfold perServiceLines genClient
    simp

/-- C3: for every method of every shape, the emitted dispatch adapter
with an unset field returns the Unimplemented status naming exactly
that method, with an empty collaborator trace, so in particular no
handler is invoked. -/
theorem claim_C3_unimplemented_adapters {γ α β σ : Type} (svc : Service) (m : Method)
    (ctx : γ) (dec : Except GrpcError α)
    (icept : Option (γ → α → UnaryServerInfoData →
      (γ → α → Except GrpcError β) → Except GrpcError β))
    (stream : σ) (recvResult : Except GrpcError α) :
    unaryMethodAdapter svc m none ctx dec icept
        = (Except.error (unimplementedError m.goName), [])
    ∧ serverStreamingMethodAdapter m
        (none : Option (α → ServerStreamWrapper σ → Option GrpcError)) stream recvResult
        = (some (unimplementedError m.goName), [])
    ∧ streamingMethodAdapter m
        (none : Option (ServerStreamWrapper σ → Option GrpcError)) stream
        = (some (unimplementedError m.goName), [])
    ∧ (unimplementedError m.goName).msg = "method " ++ m.goName ++ " not implemented"
    ∧ CallEvent.invokeHandler ∉ (unaryMethodAdapter svc m none ctx dec icept).2
    ∧ CallEvent.invokeInterceptor ∉ (unaryMethodAdapter svc m none ctx dec icept).2 :=
  ⟨rfl, rfl, rfl, rfl, by simp [unaryMethodAdapter], by simp [unaryMethodAdapter]⟩

/-- C10: on the unimplemented path the nil check fires before any
request processing: the unary adapter has not called the decode
callback, the streaming adapters have not received from the stream, and
in the emitted text the nil check lines precede the whole handler
body. -/
theorem claim_C10_nil_check_before_processing {γ α σ : Type} (svc : Service) (m : Method)
    (ctx : γ) (dec : Except GrpcError α)
    (icept : Option (γ → α → UnaryServerInfoData →
      (γ → α → Except GrpcError α) → Except GrpcError α))
    (stream : σ) (recvResult : Except GrpcError α) :
    CallEvent.decode ∉ (unaryMethodAdapter svc m none ctx dec icept).2
    ∧ CallEvent.recvMsg ∉ (serverStreamingMethodAdapter m
        (none : Option (α → ServerStreamWrapper σ → Option GrpcError)) stream recvResult).2
    ∧ (streamingMethodAdapter m
        (none : Option (ServerStreamWrapper σ → Option GrpcError)) stream).2 = []
    ∧ genMethodHandler svc m =
        ["func (s *" ++ svc.goName ++ "Service) " ++ unexport m.goName
           ++ (if !m.clientStreaming && !m.serverStreaming then unaryHandlerSignature
               else streamHandlerSignature) ++ " \x7b",
         "if s." ++ m.goName ++ " == nil \x7b",
         "return " ++ (if !m.clientStreaming && !m.serverStreaming then "nil," else "")
           ++ "status.Errorf(codes.Unimplemented, \"method "
           ++ m.goName ++ " not implemented\")",
         "\x7d"]
        ++ genHandlerBody svc m ++ ["\x7d"] :=
  ⟨by simp [unaryMethodAdapter], by simp [serverStreamingMethodAdapter], rfl, rfl⟩

/-- C7: the emitted client method for a server-streaming method sends
the single request and closes the send side after opening the stream
and before returning the wrapper; a send or close-send failure is
returned verbatim with no wrapper, and a wrapper is returned only when
every step succeeded. -/
theorem claim_C7_send_close_before_return {σ : Type}
    (newStreamResult : Except GrpcError σ)
    (sendMsgResult closeSendResult : Option GrpcError) :
    (∀ s e, newStreamResult = Except.ok s → sendMsgResult = some e →
        serverStreamingClientCall newStreamResult sendMsgResult closeSendResult
          = (Except.error e, [CallEvent.newStream, CallEvent.sendMsg]))
    ∧ (∀ s e, newStreamResult = Except.ok s → sendMsgResult = none →
        closeSendResult = some e →
        serverStreamingClientCall newStreamResult sendMsgResult closeSendResult
          = (Except.error e,
             [CallEvent.newStream, CallEvent.sendMsg, CallEvent.closeSend]))
    ∧ (∀ s, newStreamResult = Except.ok s → sendMsgResult = none →
        closeSendResult = none →
        serverStreamingClientCall newStreamResult sendMsgResult closeSendResult
          = (Except.ok ⟨s⟩,
             [CallEvent.newStream, CallEvent.sendMsg, CallEvent.closeSend]))
    ∧ (∀ w evs,
        serverStreamingClientCall newStreamResult sendMsgResult closeSendResult
          = (Except.ok w, evs) →
        newStreamResult = Except.ok w.clientStream
        ∧ sendMsgResult = none ∧ closeSendResult = none
        ∧ evs = [CallEvent.newStream, CallEvent.sendMsg, CallEvent.closeSend]) := by
  refine ⟨?_, ?_, ?_, ?_⟩
  · intro s e hn hs
    rw [hn, hs]
    rfl
  · intro s e hn hs hc
    rw [hn, hs, hc]
    rfl
  · intro s hn hs hc
    rw [hn, hs, hc]
    rfl
  · intro w evs h
    rcases newStreamResult with e0 | s0
    · exact absurd h (by simp [serverStreamingClientCall])
    · rcases sendMsgResult with _ | e1
      · rcases closeSendResult with _ | e2
        · simp only [serverStreamingClientCall, Prod.mk.injEq, Except.ok.injEq] at h
          obtain ⟨hw, hevs⟩ := h
          subst hw
          exact ⟨rfl, rfl, rfl, hevs.symm⟩
        · exact absurd h (by simp [serverStreamingClientCall])
      · exact absurd h (by simp [serverStreamingClientCall])

/-- C7 witness: the theorem applied at a concrete failing send. -/
theorem claim_C7_witness :
    serverStreamingClientCall (Except.ok (0 : Nat))
      (some (unimplementedError "Watch")) none
      = (Except.error (unimplementedError "Watch"),
         [CallEvent.newStream, CallEvent.sendMsg]) :=
  (claim_C7_send_close_before_return (Except.ok (0 : Nat))
      (some (unimplementedError "Watch")) none).1 0
    (unimplementedError "Watch") rfl rfl

/-- C4 counterexample: for a method whose descriptor name say_hello
differs from its Go name SayHello, the FullMethod string placed in the
UnaryServerInfo differs from the path the client stub uses. -/
theorem claim_C4_counterexample :
    unaryServerInfoFullMethod snakeService snakeMethod
      ≠ clientMethodPath snakeService snakeMethod := by decide

/-- C4 amended: the interceptor FullMethod is built from the GO name of
the method, the client path from the DESCRIPTOR name; the two paths
coincide exactly when those names coincide.  Both strings appear in the
corresponding emitted lines. -/
theorem claim_C4_full_method_names (svc : Service) (m : Method) :
    unaryServerInfoFullMethod svc m = "/" ++ svc.fullName ++ "/" ++ m.goName
    ∧ clientMethodPath svc m = "/" ++ svc.fullName ++ "/" ++ m.descName
    ∧ (m.goName = m.descName →
        unaryServerInfoFullMethod svc m = clientMethodPath svc m)
    ∧ ("FullMethod: " ++ goQuote (unaryServerInfoFullMethod svc m) ++ ",")
        ∈ unaryHandlerBodyLines svc m
    ∧ ("err := c.cc.Invoke(ctx, " ++ goQuote (clientMethodPath svc m)
        ++ ", in, out, opts...)") ∈ unaryClientImplLines svc m := by
  refine ⟨rfl, rfl, ?_, ?_, ?_⟩
  · intro h
    simp [unaryServerInfoFullMethod, clientMethodPath, h]
  · simp [unaryHandlerBodyLines]
  · simp [unaryClientImplLines]

/-- C4 witness: the theorem applied at the unary scenario method, whose
Go name equals its descriptor name. -/
theorem claim_C4_witness :
    unaryServerInfoFullMethod greeterService helloMethod
      = clientMethodPath greeterService helloMethod :=
  (claim_C4_full_method_names greeterService helloMethod).2.2.1 rfl

/-- Modelled from the words of the ordering claim: the per-service
output would be client stub, then server dispatch (struct, adapters,
stream wrapper types), then unstable interface, then registration, then
constructor. -/
def claimedOrderServiceLines (migrationMode : Bool) (f : ProtoFile)
    (svc : Service) : List String :=
  genClient migrationMode svc
  ++ (serviceStructLines svc
      ++ flatLines (genMethodHandler svc) svc.methods
      ++ flatLines (genServerStreamTypes migrationMode svc) svc.methods)
  ++ genUnstableServiceInterface svc
  ++ genRegisterFunction f svc
  ++ genServiceConstructor svc

set_option maxRecDepth 40000 in
/-- C5 counterexample: on a one-method service the generator does not
produce the claimed order, because registration and constructor are
emitted before the unstable interface, not after it. -/
theorem claim_C5_counterexample :
    perServiceLines false helloFile greeterService
      ≠ claimedOrderServiceLines false helloFile greeterService := by decide

/-- C5 amended: the fixed per-service builder order is client stub,
dispatch struct, adapters, stream wrapper types, registration function,
constructor, and the unstable interface last. -/
theorem claim_C5_builder_order (migrationMode : Bool) (f : ProtoFile)
    (svc : Service) :
    perServiceLines migrationMode f svc =
      genClient migrationMode svc
      ++ serviceStructLines svc
      ++ flatLines (genMethodHandler svc) svc.methods
      ++ flatLines (genServerStreamTypes migrationMode svc) svc.methods
      ++ genRegisterFunction f svc
      ++ genServiceConstructor svc
      ++ genUnstableServiceInterface svc := by
  simp [perServiceLines, genService]

/-- C6: the emitted service descriptor carries the namespace-qualified
full name, one unary entry per method with both flags false and one
streaming entry per method with a flag set, both in declaration order
with the descriptor flags copied, the metadata path of the originating
file; and the registration call passes the descriptor with a nil
implementation pointer. -/
theorem claim_C6_register_descriptor (f : ProtoFile) (svc : Service) :
    (serviceDescOf f svc).serviceName = svc.fullName
    ∧ (serviceDescOf f svc).methods =
        (svc.methods.filter (fun m => !m.clientStreaming && !m.serverStreaming)).map
          (fun m => ⟨m.descName, "srv." ++ unexport m.goName⟩)
    ∧ (serviceDescOf f svc).streams =
        (svc.methods.filter (fun m => m.clientStreaming || m.serverStreaming)).map
          (fun m => ⟨m.descName, "srv." ++ unexport m.goName,
                     m.serverStreaming, m.clientStreaming⟩)
    ∧ (serviceDescOf f svc).metadata = f.path
    ∧ ("ServiceName: " ++ goQuote svc.fullName ++ ",") ∈ genRegisterFunction f svc
    ∧ ("Metadata: \"" ++ f.path ++ "\",") ∈ genRegisterFunction f svc
    ∧ "s.RegisterService(&sd, nil)" ∈ genRegisterFunction f svc := by
  refine ⟨rfl, serviceUnaryEntries_eq_filter svc.methods,
    serviceStreamEntries_eq_filter svc.methods, rfl, ?_, ?_, ?_⟩
  · simp [genRegisterFunction]
  · simp [genRegisterFunction]
  · simp [genRegisterFunction]

/-- C8: unexport lower-cases the first character of a nonempty string
and keeps the rest; on the empty string the underlying slice faults
(modelled by unexportChecked returning none); the identifiers the
generator passes to it — a Go name with the Client suffix appended, and
service or method Go names, nonempty by construction — never reach the
faulting case, where the checked and total forms agree. -/
theorem claim_C8_unexport (s svcName mName : String) :
    unexportChecked "" = none
    ∧ (∀ c cs, s.data = c :: cs →
         unexportChecked s = some ⟨Char.toLower c :: cs⟩
         ∧ unexport s = ⟨Char.toLower c :: cs⟩)
    ∧ (s ≠ "" → (unexportChecked s).isSome = true
         ∧ unexportChecked s = some (unexport s))
    ∧ (svcName ≠ "" → (unexportChecked svcName).isSome = true)
    ∧ (mName ≠ "" → (unexportChecked mName).isSome = true)
    ∧ (unexportChecked (svcName ++ "Client")).isSome = true := by
  have key : ∀ t : String, t ≠ "" →
      (unexportChecked t).isSome = true ∧ unexportChecked t = some (unexport t) := by
    intro t ht
    rcases t with ⟨l⟩
    cases l with
    | nil => exact absurd rfl ht
    | cons c cs => exact ⟨rfl, rfl⟩
  refine ⟨rfl, ?_, key s, fun h => (key svcName h).1, fun h => (key mName h).1, ?_⟩
  · intro c cs h
    rcases s with ⟨l⟩
    cases l with
    | nil => cases h
    | cons c0 cs0 =>
      obtain ⟨h1, h2⟩ := List.cons.injEq c0 cs0 c cs ▸ h
      subst h1
      subst h2
      exact ⟨rfl, rfl⟩
  · rcases svcName with ⟨l⟩
    cases l with
    | nil => rfl
    | cons c cs => rfl

/-! ## Supporting lemmas for the wrapper method-set and descriptor
claims -/

theorem c1_client_send_iff (svc : Service) (m : Method) :
    ("Send(*" ++ m.inputType ++ ") error") ∈ clientWrapperIfaceLines svc m
      ↔ m.clientStreaming = true := by
  cases hc : m.clientStreaming <;> cases hs : m.serverStreaming <;>
    simp only [clientWrapperIfaceLines, clientGenSend, clientGenRecv,
      clientGenCloseAndRecv, hc, hs, Bool.not_true, Bool.not_false,
      if_true, if_false, Bool.false_eq_true, Bool.true_eq_false,
      ite_true, ite_false, List.nil_append, List.cons_append,
      List.singleton_append, List.append_nil, List.mem_cons,
      List.not_mem_nil, or_false, false_or, String.append_assoc,
      iff_true, iff_false, not_or]
  all_goals try simp
  all_goals repeat' apply And.intro
  all_goals
    first
      | exact lit_ne_lit _ _ 1 (by decide) (by decide) (by decide)
      | exact lit_ne_lit _ _ 5 (by decide) (by decide) (by decide)
      | exact lit_append_ne_lit _ 1 (by decide) (by decide)
      | exact lit_append_ne_lit _ 5 (by decide) (by decide)

theorem c1_client_recv_iff (svc : Service) (m : Method) :
    ("Recv() (*" ++ m.outputType ++ ", error)") ∈ clientWrapperIfaceLines svc m
      ↔ m.serverStreaming = true := by
  cases hc : m.clientStreaming <;> cases hs : m.serverStreaming <;>
    simp only [clientWrapperIfaceLines, clientGenSend, clientGenRecv,
      clientGenCloseAndRecv, hc, hs, Bool.not_true, Bool.not_false,
      if_true, if_false, Bool.false_eq_true, Bool.true_eq_false,
      ite_true, ite_false, List.nil_append, List.cons_append,
      List.singleton_append, List.append_nil, List.mem_cons,
      List.not_mem_nil, or_false, false_or, String.append_assoc,
      iff_true, iff_false, not_or]
  all_goals try simp
  all_goals repeat' apply And.intro
  all_goals
    first
      | exact lit_ne_lit _ _ 1 (by decide) (by decide) (by decide)
      | exact lit_ne_lit _ _ 5 (by decide) (by decide) (by decide)
      | exact lit_append_ne_lit _ 1 (by decide) (by decide)
      | exact lit_append_ne_lit _ 5 (by decide) (by decide)

theorem c1_client_closeandrecv_iff (svc : Service) (m : Method) :
    ("CloseAndRecv() (*" ++ m.outputType ++ ", error)") ∈ clientWrapperIfaceLines svc m
      ↔ m.serverStreaming = false := by
  cases hc : m.clientStreaming <;> cases hs : m.serverStreaming <;>
    simp only [clientWrapperIfaceLines, clientGenSend, clientGenRecv,
      clientGenCloseAndRecv, hc, hs, Bool.not_true, Bool.not_false,
      if_true, if_false, Bool.false_eq_true, Bool.true_eq_false,
      ite_true, ite_false, List.nil_append, List.cons_append,
      List.singleton_append, List.append_nil, List.mem_cons,
      List.not_mem_nil, or_false, false_or, String.append_assoc,
      iff_true, iff_false, not_or]
  all_goals try simp
  all_goals repeat' apply And.intro
  all_goals
    first
      | exact lit_ne_lit _ _ 1 (by decide) (by decide) (by decide)
      | exact lit_ne_lit _ _ 5 (by decide) (by decide) (by decide)
      | exact lit_append_ne_lit _ 1 (by decide) (by decide)
      | exact lit_append_ne_lit _ 5 (by decide) (by decide)

theorem c1_server_send_iff (svc : Service) (m : Method) :
    ("Send(*" ++ m.outputType ++ ") error") ∈ serverWrapperIfaceLines svc m
      ↔ m.serverStreaming = true := by
  cases hc : m.clientStreaming <;> cases hs : m.serverStreaming <;>
    simp only [serverWrapperIfaceLines, serverGenSend, serverGenSendAndClose,
      serverGenRecv, hc, hs, Bool.not_true, Bool.not_false,
      if_true, if_false, Bool.false_eq_true, Bool.true_eq_false,
      ite_true, ite_false, List.nil_append, List.cons_append,
      List.singleton_append, List.append_nil, List.mem_cons,
      List.not_mem_nil, or_false, false_or, String.append_assoc,
      iff_true, iff_false, not_or]
  all_goals try simp
  all_goals repeat' apply And.intro
  all_goals
    first
      | exact lit_ne_lit _ _ 1 (by decide) (by decide) (by decide)
      | exact lit_ne_lit _ _ 5 (by decide) (by decide) (by decide)
      | exact lit_append_ne_lit _ 1 (by decide) (by decide)
      | exact lit_append_ne_lit _ 5 (by decide) (by decide)

theorem c1_server_sendandclose_iff (svc : Service) (m : Method) :
    ("SendAndClose(*" ++ m.outputType ++ ") error") ∈ serverWrapperIfaceLines svc m
      ↔ m.serverStreaming = false := by
  cases hc : m.clientStreaming <;> cases hs : m.serverStreaming <;>
    simp only [serverWrapperIfaceLines, serverGenSend, serverGenSendAndClose,
      serverGenRecv, hc, hs, Bool.not_true, Bool.not_false,
      if_true, if_false, Bool.false_eq_true, Bool.true_eq_false,
      ite_true, ite_false, List.nil_append, List.cons_append,
      List.singleton_append, List.append_nil, List.mem_cons,
      List.not_mem_nil, or_false, false_or, String.append_assoc,
      iff_true, iff_false, not_or]
  all_goals try simp
  all_goals repeat' apply And.intro
  all_goals
    first
      | exact lit_ne_lit _ _ 1 (by decide) (by decide) (by decide)
      | exact lit_ne_lit _ _ 5 (by decide) (by decide) (by decide)
      | exact lit_append_ne_lit _ 1 (by decide) (by decide)
      | exact lit_append_ne_lit _ 5 (by decide) (by decide)

theorem c1_server_recv_iff (svc : Service) (m : Method) :
    ("Recv() (*" ++ m.inputType ++ ", error)") ∈ serverWrapperIfaceLines svc m
      ↔ m.clientStreaming = true := by
  cases hc : m.clientStreaming <;> cases hs : m.serverStreaming <;>
    simp only [serverWrapperIfaceLines, serverGenSend, serverGenSendAndClose,
      serverGenRecv, hc, hs, Bool.not_true, Bool.not_false,
      if_true, if_false, Bool.false_eq_true, Bool.true_eq_false,
      ite_true, ite_false, List.nil_append, List.cons_append,
      List.singleton_append, List.append_nil, List.mem_cons,
      List.not_mem_nil, or_false, false_or, String.append_assoc,
      iff_true, iff_false, not_or]
  all_goals try simp
  all_goals repeat' apply And.intro
  all_goals
    first
      | exact lit_ne_lit _ _ 1 (by decide) (by decide) (by decide)
      | exact lit_ne_lit _ _ 5 (by decide) (by decide) (by decide)
      | exact lit_append_ne_lit _ 1 (by decide) (by decide)
      | exact lit_append_ne_lit _ 5 (by decide) (by decide)

/-- For a unary method the per-method client output is the deprecation
notice, the descriptor variable with no flag lines, and the Invoke-based
implementation. -/
theorem unary_genClientMethod_eq (svc : Service) (m : Method)
    (hc : m.clientStreaming = false) (hs : m.serverStreaming = false) :
    genClientMethod svc m =
      methodDeprLines m
      ++ ["var " ++ streamDescName svc m ++ " = &grpc.StreamDesc\x7b",
          "StreamName: " ++ goQuote m.descName ++ ",",
          "\x7d"]
      ++ unaryClientImplLines svc m := by
  simp [genClientMethod, clientStreamDescLines, hc, hs]

theorem clientWrapperDecl_not_mem_unary (svc : Service) (m : Method)
    (hc : m.clientStreaming = false) (hs : m.serverStreaming = false) :
    ("type " ++ svc.goName ++ "_" ++ m.goName ++ "Client interface \x7b")
      ∉ genClientMethod svc m := by
  rw [unary_genClientMethod_eq svc m hc hs]
  cases hd : m.deprecated <;>
    simp only [methodDeprLines, unaryClientImplLines, goQuote, hd,
      if_true, if_false, ite_true, ite_false, Bool.false_eq_true, Bool.true_eq_false,
      List.nil_append, List.cons_append, List.singleton_append, List.append_nil,
      List.mem_append, List.mem_cons, List.not_mem_nil, or_false, false_or,
      String.append_assoc, not_or]
  all_goals repeat' apply And.intro
  all_goals
    first
      | decide
      | exact lit_ne_lit _ _ 1 (by decide) (by decide) (by decide)
      | exact lit_append_ne_lit _ 1 (by decide) (by decide)
      | exact (lit_append_ne_lit _ 1 (by decide) (by decide)).symm
      | exact (lit_append_ne_lit _ 2 (by decide) (by decide)).symm

theorem serverStreamsLine_not_mem_unary (svc : Service) (m : Method)
    (hc : m.clientStreaming = false) (hs : m.serverStreaming = false) :
    "ServerStreams: true," ∉ genClientMethod svc m := by
  rw [unary_genClientMethod_eq svc m hc hs]
  cases hd : m.deprecated <;>
    simp only [methodDeprLines, unaryClientImplLines, goQuote, hd,
      if_true, if_false, ite_true, ite_false, Bool.false_eq_true, Bool.true_eq_false,
      List.nil_append, List.cons_append, List.singleton_append, List.append_nil,
      List.mem_append, List.mem_cons, List.not_mem_nil, or_false, false_or,
      String.append_assoc, not_or]
  all_goals repeat' apply And.intro
  all_goals
    first
      | decide
      | exact lit_ne_lit _ _ 1 (by decide) (by decide) (by decide)
      | exact lit_append_ne_lit _ 1 (by decide) (by decide)
      | exact (lit_append_ne_lit _ 1 (by decide) (by decide)).symm
      | exact (lit_append_ne_lit _ 2 (by decide) (by decide)).symm

theorem clientStreamsLine_not_mem_unary (svc : Service) (m : Method)
    (hc : m.clientStreaming = false) (hs : m.serverStreaming = false) :
    "ClientStreams: true," ∉ genClientMethod svc m := by
  rw [unary_genClientMethod_eq svc m hc hs]
  cases hd : m.deprecated <;>
    simp only [methodDeprLines, unaryClientImplLines, goQuote, hd,
      if_true, if_false, ite_true, ite_false, Bool.false_eq_true, Bool.true_eq_false,
      List.nil_append, List.cons_append, List.singleton_append, List.append_nil,
      List.mem_append, List.mem_cons, List.not_mem_nil, or_false, false_or,
      String.append_assoc, not_or]
  all_goals repeat' apply And.intro
  all_goals
    first
      | decide
      | exact lit_ne_lit _ _ 1 (by decide) (by decide) (by decide)
      | exact lit_append_ne_lit _ 1 (by decide) (by decide)
      | exact (lit_append_ne_lit _ 1 (by decide) (by decide)).symm
      | exact (lit_append_ne_lit _ 2 (by decide) (by decide)).symm

/-- C1: the exposed method set of each emitted stream wrapper interface
is exactly determined by the streaming flags — client side: Send iff
client-streaming, Recv iff server-streaming, CloseAndRecv iff not
server-streaming; server side: Send iff server-streaming, SendAndClose
iff not server-streaming, Recv iff client-streaming — and a unary
method gets no wrapper type on either side. -/
theorem claim_C1_wrapper_method_sets (migrationMode : Bool) (svc : Service) (m : Method) :
    (("Send(*" ++ m.inputType ++ ") error") ∈ clientWrapperIfaceLines svc m
       ↔ m.clientStreaming = true)
    ∧ (("Recv() (*" ++ m.outputType ++ ", error)") ∈ clientWrapperIfaceLines svc m
       ↔ m.serverStreaming = true)
    ∧ (("CloseAndRecv() (*" ++ m.outputType ++ ", error)") ∈ clientWrapperIfaceLines svc m
       ↔ m.serverStreaming = false)
    ∧ (("Send(*" ++ m.outputType ++ ") error") ∈ serverWrapperIfaceLines svc m
       ↔ m.serverStreaming = true)
    ∧ (("SendAndClose(*" ++ m.outputType ++ ") error") ∈ serverWrapperIfaceLines svc m
       ↔ m.serverStreaming = false)
    ∧ (("Recv() (*" ++ m.inputType ++ ", error)") ∈ serverWrapperIfaceLines svc m
       ↔ m.clientStreaming = true)
    ∧ (m.clientStreaming = false → m.serverStreaming = false →
        genServerStreamTypes migrationMode svc m = []
        ∧ ("type " ++ svc.goName ++ "_" ++ m.goName ++ "Client interface \x7b")
            ∉ genClientMethod svc m) := by
  refine ⟨c1_client_send_iff svc m, c1_client_recv_iff svc m,
    c1_client_closeandrecv_iff svc m, c1_server_send_iff svc m,
    c1_server_sendandclose_iff svc m, c1_server_recv_iff svc m, ?_⟩
  intro hc hs
  refine ⟨?_, clientWrapperDecl_not_mem_unary svc m hc hs⟩
  cases migrationMode
  · simp [genServerStreamTypes, hc, hs]
  · rfl

/-- C1 witness: the unary scenario method gets no wrapper type in
either direction. -/
theorem claim_C1_witness :
    genServerStreamTypes false greeterService helloMethod = []
    ∧ ("type " ++ greeterService.goName ++ "_" ++ helloMethod.goName
        ++ "Client interface \x7b") ∉ genClientMethod greeterService helloMethod :=
  (claim_C1_wrapper_method_sets false greeterService helloMethod).2.2.2.2.2.2 rfl rfl

/-- C9: a stream descriptor variable is emitted for every method, unary
included, ahead of the client implementation body, and for a unary
method the descriptor carries neither streaming flag; in full mode the
variable line reaches the client builder output. -/
theorem claim_C9_stream_descriptor_always (svc : Service) (m : Method) :
    (clientStreamDescLines svc m).head? =
        some ("var " ++ streamDescName svc m ++ " = &grpc.StreamDesc\x7b")
    ∧ genClientMethod svc m =
        methodDeprLines m ++ clientStreamDescLines svc m
          ++ (if !m.serverStreaming && !m.clientStreaming then
                unaryClientImplLines svc m
              else
                streamingClientImplLines svc m ++ clientWrapperIfaceLines svc m
                  ++ clientWrapperImplLines svc m)
    ∧ (m ∈ svc.methods →
        ("var " ++ streamDescName svc m ++ " = &grpc.StreamDesc\x7b")
          ∈ genClient false svc)
    ∧ (m.clientStreaming = false → m.serverStreaming = false →
        "ServerStreams: true," ∉ genClientMethod svc m
        ∧ "ClientStreams: true," ∉ genClientMethod svc m) := by
  refine ⟨rfl, rfl, ?_, ?_⟩
  · intro hm
    have hline : ("var " ++ streamDescName svc m ++ " = &grpc.StreamDesc\x7b")
        ∈ genClientMethod svc m := by
      simp [genClientMethod, clientStreamDescLines]
    have hflat := mem_flatLines hm hline
    simp only [genClient, Bool.false_eq_true, if_false, ite_false]
    simp [List.mem_append, hflat]
  · intro hc hs
    exact ⟨serverStreamsLine_not_mem_unary svc m hc hs,
      clientStreamsLine_not_mem_unary svc m hc hs⟩

/-- C9 witness: the descriptor variable of the unary scenario method is
emitted in full mode and carries no flag lines. -/
theorem claim_C9_witness :
    ("var " ++ streamDescName greeterService helloMethod ++ " = &grpc.StreamDesc\x7b")
        ∈ genClient false greeterService
    ∧ "ServerStreams: true," ∉ genClientMethod greeterService helloMethod
    ∧ "ClientStreams: true," ∉ genClientMethod greeterService helloMethod :=
  ⟨(claim_C9_stream_descriptor_always greeterService helloMethod).2.2.1
      (List.mem_singleton.mpr rfl),
   (claim_C9_stream_descriptor_always greeterService helloMethod).2.2.2 rfl rfl⟩

/-- C8 witness: the theorem applied at the Greeter service name. -/
theorem claim_C8_witness :
    unexportChecked "Greeter" = some "greeter" := by
  have h := (claim_C8_unexport "Greeter" "Greeter" "SayHello").2.1 'G'
    "reeter".data (by decide)
  rw [h.1]
  decide

end GrpcGen
